import Mathlib

/-!
Verification of the stackoverflow-mcp-server repository.

The development shallowly embeds the Python sources under
`src/stackoverflow_mcp/` (`api.py`, `types.py`, `formatter.py`,
`server.py`, `env.py`) as executable Lean definitions and proves
properties about them.  Timestamps and scores are modelled as `Int`
(Python ints / milliseconds), upstream JSON records as structures of
optional fields, network fetches as explicit oracle parameters, and
exceptions as an explicit outcome type.
-/

namespace SOMCP
/-- Configuration values from `env.py` (`MAX_REQUEST_PER_WINDOW`,
`RATE_LIMIT_WINDOW_MS`, `RETRY_AFTER_MS`), kept abstract so that the
documented environment overrides are covered; `defaultConfig` carries the
documented defaults 30 / 60000 / 2000. -/
structure Config where
  maxRequestsPerWindow : Nat
  rateLimitWindowMs : Int
  retryAfterMs : Int
  deriving Repr, DecidableEq

/-- The documented defaults of `env.py`. -/
def defaultConfig : Config :=
  { maxRequestsPerWindow := 30, rateLimitWindowMs := 60000, retryAfterMs := 2000 }

/-- The mutable state read and written by `StackExchangeAPI._check_rate_limit`:
the `request_timestamps` list together with the current wall clock in
milliseconds (`time.time() * 1000`). -/
structure LimiterState where
  timestamps : List Int
  now : Int
  deriving Repr, DecidableEq

/-- `StackExchangeAPI._check_rate_limit` (api.py, lines 35-47): evict every
timestamp `ts` with `now - ts >= RATE_LIMIT_WINDOW_MS`; if the remaining
count has reached `MAX_REQUEST_PER_WINDOW`, report rejection and record
nothing; otherwise append `now` and report admission. -/
def checkRateLimit (cfg : Config) (s : LimiterState) : Bool × LimiterState :=
  let kept := s.timestamps.filter (fun ts => s.now - ts < cfg.rateLimitWindowMs)
  if kept.length ≥ cfg.maxRequestsPerWindow then
    (false, { s with timestamps := kept })
  else
    (true, { s with timestamps := kept ++ [s.now] })

/-- Run `_check_rate_limit` once for each instant in `times` (the wall clock
at the successive calls), threading the timestamp list through; returns the
list of admission decisions and the final timestamp list. -/
def runChecks (cfg : Config) : List Int → List Int → List Bool × List Int
  | [], tss => ([], tss)
  | t :: ts, tss =>
    let step := checkRateLimit cfg { timestamps := tss, now := t }
    let rest := runChecks cfg ts step.2.timestamps
    (step.1 :: rest.1, rest.2)

/-- `times` all fall inside one rate-limit window: any later check instant is
less than a full window after any earlier one. -/
def InOneWindow (cfg : Config) (times : List Int) : Prop :=
  times.Pairwise (fun a b => b - a < cfg.rateLimitWindowMs)

/-- Outcome of one invocation of the wrapped operation, or of the executor
itself: a successful value, an `httpx.HTTPStatusError` carrying its HTTP
status code, or any other Python exception carrying its message.  Only
`httpStatusError` is caught by `_with_rate_limit`'s `except` clause. -/
inductive PyOutcome (α : Type) where
  | ok (v : α)
  | httpStatusError (status : Nat)
  | otherError (msg : String)
  deriving Repr, DecidableEq

/-- Observable execution state threaded through `_with_rate_limit`: the
shared limiter state plus counters of operation invocations, sleeps taken
after a local-admission rejection, and sleeps taken after an upstream 429. -/
structure RunState where
  limiter : LimiterState
  calls : Nat
  localWaits : Nat
  retryWaits : Nat
  deriving Repr, DecidableEq

/-- `StackExchangeAPI._with_rate_limit` (api.py, lines 49-82).  The wrapped
`func` is modelled as a map from the invocation index to its outcome; each
`asyncio.sleep(RETRY_AFTER_MS / 1000)` advances the wall clock by
`retryAfterMs`.  If `attempts <= 0` raise
`Exception("Maximum rate limiting attempts exceeded")`; else if the rate
limiter rejects, sleep and recurse with `attempts - 1`; else invoke `func`,
and on an `HTTPStatusError` with status 429 while `retries > 0`, sleep and
recurse with `retries - 1`; every other outcome propagates as is. -/
def withRateLimit {α : Type} (cfg : Config) (op : Nat → PyOutcome α)
    (retries attempts : Int) (st : RunState) : PyOutcome α × RunState :=
  if attempts ≤ 0 then
    (.otherError "Maximum rate limiting attempts exceeded", st)
  else if (checkRateLimit cfg st.limiter).1 = false then
    withRateLimit cfg op retries (attempts - 1)
      { st with
          limiter :=
            { (checkRateLimit cfg st.limiter).2 with
                now := (checkRateLimit cfg st.limiter).2.now + cfg.retryAfterMs }
          localWaits := st.localWaits + 1 }
  else
    match op st.calls with
    | .ok v =>
      (.ok v,
        { st with limiter := (checkRateLimit cfg st.limiter).2, calls := st.calls + 1 })
    | .httpStatusError code =>
      if retries > 0 ∧ code = 429 then
        withRateLimit cfg op (retries - 1) attempts
          { st with
              limiter :=
                { (checkRateLimit cfg st.limiter).2 with
                    now := (checkRateLimit cfg st.limiter).2.now + cfg.retryAfterMs }
              calls := st.calls + 1
              retryWaits := st.retryWaits + 1 }
      else
        (.httpStatusError code,
          { st with limiter := (checkRateLimit cfg st.limiter).2, calls := st.calls + 1 })
    | .otherError m =>
      (.otherError m,
        { st with limiter := (checkRateLimit cfg st.limiter).2, calls := st.calls + 1 })
  termination_by (retries.toNat + attempts.toNat)
  decreasing_by
  · simp only [not_le] at *; omega
  · simp only [not_le] at *; omega

/-- The limiter, from state `ls`, rejects the next `k` admission checks
(with the clock advanced by the backoff interval after each) and then admits
the `(k+1)`-th. -/
def rejectsThenAdmits (cfg : Config) : Nat → LimiterState → Bool
  | 0, ls => (checkRateLimit cfg ls).1
  | k + 1, ls =>
    !(checkRateLimit cfg ls).1 &&
      rejectsThenAdmits cfg k
        { (checkRateLimit cfg ls).2 with
            now := (checkRateLimit cfg ls).2.now + cfg.retryAfterMs }

/-- An upstream question JSON record (`question_data` in api.py): each field
is `none` when the key is missing from the record.  Owner descriptors are
opaque structured data, modelled as an optional string. -/
structure QRecord where
  question_id : Option Int := none
  title : Option String := none
  body : Option String := none
  score : Option Int := none
  answer_count : Option Int := none
  is_answered : Option Bool := none
  accepted_answer_id : Option Int := none
  creation_date : Option Int := none
  last_activity_date : Option Int := none
  view_count : Option Int := none
  tags : Option (List String) := none
  link : Option String := none
  closed_date : Option Int := none
  owner : Option String := none
  deriving Repr, DecidableEq

/-- An upstream answer JSON record (`answer_data` in api.py). -/
structure ARecord where
  answer_id : Option Int := none
  question_id : Option Int := none
  score : Option Int := none
  is_accepted : Option Bool := none
  body : Option String := none
  creation_date : Option Int := none
  last_activity_date : Option Int := none
  link : Option String := none
  owner : Option String := none
  deriving Repr, DecidableEq

/-- An upstream comment JSON record (`comment_data` in api.py). -/
structure CRecord where
  comment_id : Option Int := none
  post_id : Option Int := none
  score : Option Int := none
  body : Option String := none
  creation_date : Option Int := none
  owner : Option String := none
  deriving Repr, DecidableEq

/-- The question entity with the fields the api.py constructor calls set
(`question_id` through `owner`).  types.py's `StackOverflowQuestion`
dataclass declares only a subset of these fields — that mismatch is analysed
separately by `mapQuestionRecord`; the field set here follows the api.py
call sites and spec §3. -/
structure StackOverflowQuestion where
  question_id : Option Int
  title : String
  body : String
  score : Int
  answer_count : Int
  is_answered : Bool
  accepted_answer_id : Option Int
  creation_date : Int
  last_activity_date : Int
  view_count : Int
  tags : List String
  link : String
  is_closed : Bool
  owner : Option String
  deriving Repr, DecidableEq

/-- The answer entity with the fields the api.py constructor calls set. -/
structure StackOverflowAnswer where
  answer_id : Option Int
  question_id : Option Int
  score : Int
  is_accepted : Bool
  body : String
  creation_date : Int
  last_activity_date : Int
  link : String
  owner : Option String
  deriving Repr, DecidableEq

/-- The comment entity with the fields the api.py constructor calls set. -/
structure StackOverflowComment where
  comment_id : Option Int
  post_id : Option Int
  score : Int
  body : String
  creation_date : Int
  owner : Option String
  deriving Repr, DecidableEq

/-- Field-by-field mapping of a question record as written at the api.py
call sites: `.get(key, default)` becomes `Option.getD`; `question_id` and
`accepted_answer_id` use `.get` with no default; `is_closed` is
`question_data.get("closed_date") is not None`. -/
def questionOfRecord (r : QRecord) : StackOverflowQuestion :=
  { question_id := r.question_id
    title := r.title.getD ""
    body := r.body.getD ""
    score := r.score.getD 0
    answer_count := r.answer_count.getD 0
    is_answered := r.is_answered.getD false
    accepted_answer_id := r.accepted_answer_id
    creation_date := r.creation_date.getD 0
    last_activity_date := r.last_activity_date.getD 0
    view_count := r.view_count.getD 0
    tags := r.tags.getD []
    link := r.link.getD ""
    is_closed := r.closed_date.isSome
    owner := r.owner }

/-- Field-by-field mapping of an answer record (api.py `fetch_answers`). -/
def answerOfRecord (r : ARecord) : StackOverflowAnswer :=
  { answer_id := r.answer_id
    question_id := r.question_id
    score := r.score.getD 0
    is_accepted := r.is_accepted.getD false
    body := r.body.getD ""
    creation_date := r.creation_date.getD 0
    last_activity_date := r.last_activity_date.getD 0
    link := r.link.getD ""
    owner := r.owner }

/-- Field-by-field mapping of a comment record (api.py `fetch_comments`). -/
def commentOfRecord (r : CRecord) : StackOverflowComment :=
  { comment_id := r.comment_id
    post_id := r.post_id
    score := r.score.getD 0
    body := r.body.getD ""
    creation_date := r.creation_date.getD 0
    owner := r.owner }

/-- The parameter names accepted by types.py's `StackOverflowQuestion`
dataclass constructor (its declared fields, lines 30-40 of types.py). -/
def questionDataclassFields : List String :=
  ["question_id", "title", "body", "score", "answer_count", "is_answered",
   "accepted_answer_id", "creation_date", "tags", "link"]

/-- The keyword arguments api.py passes to `StackOverflowQuestion(...)`
(in `advanced_search` and `get_question`), in source order. -/
def questionCallKwargs : List String :=
  ["question_id", "title", "body", "score", "answer_count", "is_answered",
   "accepted_answer_id", "creation_date", "last_activity_date", "view_count",
   "tags", "link", "is_closed", "owner"]

/-- The parameter names accepted by types.py's `StackOverflowAnswer`
dataclass constructor (lines 42-50 of types.py). -/
def answerDataclassFields : List String :=
  ["answer_id", "question_id", "score", "is_accepted", "body",
   "creation_date", "link"]

/-- The keyword arguments api.py passes to `StackOverflowAnswer(...)`
(in `fetch_answers`), in source order. -/
def answerCallKwargs : List String :=
  ["answer_id", "question_id", "score", "is_accepted", "body",
   "creation_date", "last_activity_date", "link", "owner"]

/-- The parameter names accepted by types.py's `StackOverflowComment`
dataclass constructor (lines 52-58 of types.py). -/
def commentDataclassFields : List String :=
  ["comment_id", "post_id", "score", "body", "creation_date"]

/-- The keyword arguments api.py passes to `StackOverflowComment(...)`
(in `fetch_comments`), in source order. -/
def commentCallKwargs : List String :=
  ["comment_id", "post_id", "score", "body", "creation_date", "owner"]

/-- Python keyword-argument binding for a dataclass-generated `__init__`:
the first passed keyword that is not a declared parameter raises
`TypeError` naming that keyword. -/
def pythonKwargCall (declaredFields passedKwargs : List String) :
    Except String Unit :=
  match passedKwargs.find? (fun k => ! declaredFields.contains k) with
  | some k => .error ("TypeError: unexpected keyword argument " ++ k)
  | none => .ok ()

/-- The question mapping exactly as the repository executes it: api.py
calls types.py's `StackOverflowQuestion` constructor with
`questionCallKwargs`; if the keyword binding succeeds the field mapping
`questionOfRecord` is performed. -/
def mapQuestionRecord (r : QRecord) : Except String StackOverflowQuestion :=
  match pythonKwargCall questionDataclassFields questionCallKwargs with
  | .error e => .error e
  | .ok _ => .ok (questionOfRecord r)

/-- The answer mapping exactly as the repository executes it. -/
def mapAnswerRecord (r : ARecord) : Except String StackOverflowAnswer :=
  match pythonKwargCall answerDataclassFields answerCallKwargs with
  | .error e => .error e
  | .ok _ => .ok (answerOfRecord r)

/-- The comment mapping exactly as the repository executes it. -/
def mapCommentRecord (r : CRecord) : Except String StackOverflowComment :=
  match pythonKwargCall commentDataclassFields commentCallKwargs with
  | .error e => .error e
  | .ok _ => .ok (commentOfRecord r)

/-- Python `dict` assignment `d[k] = v`: overwrite in place if the key is
present, else append at the end. -/
def dictInsert {κ ν : Type} [DecidableEq κ] :
    List (κ × ν) → κ → ν → List (κ × ν)
  | [], k, v => [(k, v)]
  | (k', v') :: rest, k, v =>
    if k' = k then (k, v) :: rest else (k', v') :: dictInsert rest k v

/-- The keys of a modelled Python dict, in insertion order. -/
def dictKeys {κ ν : Type} (d : List (κ × ν)) : List κ := d.map Prod.fst

/-- Python `d[k]` / `k in d`: the value at a key, if present (the entry
keys of a modelled dict are unique, so first match is the match). -/
def dictGet {κ ν : Type} [DecidableEq κ] : List (κ × ν) → κ → Option ν
  | [], _ => none
  | (a, b) :: rest, k => if a = k then some b else dictGet rest k

/-- The upstream service, as the item lists of the four endpoint responses
(`data.get("items", [])`); answer and comment fetches are keyed by the
identifier taken from the entity, which api.py uses without a default and
may therefore be `None`. -/
structure Upstream where
  searchItems : List QRecord
  answerItems : Option Int → List ARecord
  commentItems : Option Int → List CRecord
  questionItems : Int → List QRecord

/-- The comment bundle (`SearchResultComments` in types.py): the question's
comments plus the per-answer comment dict built by the api.py loop
`answers_comments[answer.answer_id] = await self.fetch_comments(...)`. -/
structure SearchResultComments where
  question : List StackOverflowComment
  answers : List (Option Int × List StackOverflowComment)
  deriving Repr, DecidableEq

/-- One aggregate result (`SearchResult` in types.py). -/
structure SearchResult where
  question : StackOverflowQuestion
  answers : List StackOverflowAnswer
  comments : Option SearchResultComments
  deriving Repr, DecidableEq

/-- The comment fan-out shared by `advanced_search` and `get_question`:
fetch the question's comments, then for each answer fetch its comments into
the dict keyed by `answer_id`. -/
def buildComments (up : Upstream) (qid : Option Int)
    (answers : List StackOverflowAnswer) : SearchResultComments :=
  { question := (up.commentItems qid).map commentOfRecord
    answers := answers.foldl
      (fun acc a =>
        dictInsert acc a.answer_id ((up.commentItems a.answer_id).map commentOfRecord))
      [] }

/-- Assembly of one `SearchResult` from a question record, as performed per
item in `advanced_search` (api.py lines 211-250) and for the single item in
`get_question` (lines 433-470): map the question, fetch and map its answers,
and optionally build the comment bundle. -/
def assembleResult (up : Upstream) (includeComments : Bool) (r : QRecord) :
    SearchResult :=
  let question := questionOfRecord r
  let answers := (up.answerItems question.question_id).map answerOfRecord
  { question := question
    answers := answers
    comments :=
      if includeComments then some (buildComments up question.question_id answers)
      else none }

/-- The per-item filter of `advanced_search` (api.py lines 207-209): a
record is skipped exactly when `min_score is not None` and its score
(default 0) is below it. -/
def keepRecord (minScore : Option Int) (r : QRecord) : Bool :=
  match minScore with
  | some m => ! decide (r.score.getD 0 < m)
  | none => true

/-- The result-assembly phase of `advanced_search` (api.py lines 205-252):
iterate over the response items, skip the ones below `min_score`, and
assemble a `SearchResult` for each remaining record. -/
def advancedSearch (up : Upstream) (minScore : Option Int)
    (includeComments : Bool) : List SearchResult :=
  (up.searchItems.filter (keepRecord minScore)).map
    (assembleResult up includeComments)

/-- The items-check and assembly structure of `get_question` (api.py lines
397-470) over the pure field mappings: if the response has no items, raise
`ValueError(f"Question with ID {question_id} not found")`; otherwise
assemble the result from `data["items"][0]`.  This idealizes the entity
constructions as succeeding; the staged types.py constructor failure on
this path is modelled faithfully by `getQuestionChecked` below, and makes
the `.ok` outcome here unreachable in the staged source. -/
def getQuestion (up : Upstream) (qid : Int) (includeComments : Bool) :
    Except String SearchResult :=
  match up.questionItems qid with
  | [] => .error ("Question with ID " ++ toString qid ++ " not found")
  | r :: _ => .ok (assembleResult up includeComments r)

/-- `get_question` (api.py lines 397-470) with the entity constructions as
the staged source executes them: after the items check, the question, each
answer and each comment are built through the types.py dataclass
constructors (`mapQuestionRecord` and friends), whose keyword-argument
mismatch raises, and any such exception propagates out of the function. -/
def getQuestionChecked (up : Upstream) (qid : Int) (includeComments : Bool) :
    Except String SearchResult :=
  match up.questionItems qid with
  | [] => .error ("Question with ID " ++ toString qid ++ " not found")
  | r :: _ => do
    let question ← mapQuestionRecord r
    let answers ← (up.answerItems question.question_id).mapM mapAnswerRecord
    let comments ←
      if includeComments then do
        let questionComments ←
          (up.commentItems question.question_id).mapM mapCommentRecord
        let answerComments ← answers.foldlM
          (fun acc a => do
            let cs ← (up.commentItems a.answer_id).mapM mapCommentRecord
            pure (dictInsert acc a.answer_id cs))
          ([] : List (Option Int × List StackOverflowComment))
        pure (some ⟨questionComments, answerComments⟩)
      else pure none
    pure ⟨question, answers, comments⟩

/-- The filter arguments of `advanced_search` that feed the upstream
parameter dict; `from_date`/`to_date` are held as their epoch-second
timestamps. -/
structure SearchFilters where
  query : Option String := none
  tags : Option (List String) := none
  excluded_tags : Option (List String) := none
  min_score : Option Int := none
  title : Option String := none
  body : Option String := none
  answers : Option Int := none
  has_accepted_answer : Option Bool := none
  views : Option Int := none
  url : Option String := none
  user_id : Option Int := none
  is_closed : Option Bool := none
  is_wiki : Option Bool := none
  is_migrated : Option Bool := none
  has_notice : Option Bool := none
  from_date : Option Int := none
  to_date : Option Int := none
  sort_by : Option String := some "votes"
  limit : Option Int := some 5
  deriving Repr, DecidableEq

/-- Python truthiness of an optional string (`if query:`). -/
def truthyStr (s : Option String) : Bool :=
  match s with
  | none => false
  | some s => ! s.isEmpty

/-- Python truthiness of an optional list (`if tags:`). -/
def truthyList {α : Type} (l : Option (List α)) : Bool :=
  match l with
  | none => false
  | some l => ! l.isEmpty

/-- Python truthiness of an optional integer (`if limit:`: 0 is falsy). -/
def truthyInt (i : Option Int) : Bool :=
  match i with
  | none => false
  | some i => decide (i ≠ 0)

/-- Python `"true" if b else "false"`. -/
def pyBoolStr (b : Bool) : String := if b then "true" else "false"

/-- The `params` dict built by `advanced_search` (api.py lines 136-191),
key by key in source order; values are the parameter objects (an absent-able
string).  `min_score` feeds no entry. -/
def buildSearchParams (f : SearchFilters) : List (String × Option String) :=
  [("site", some "stackoverflow"), ("sort", f.sort_by), ("order", some "desc")]
  ++ (if truthyStr f.query then [("q", f.query)] else [])
  ++ (if truthyList f.tags then
        [("tagged", some (String.intercalate ";" (f.tags.getD [])))] else [])
  ++ (if truthyList f.excluded_tags then
        [("nottagged", some (String.intercalate ";" (f.excluded_tags.getD [])))] else [])
  ++ (if truthyStr f.title then [("title", f.title)] else [])
  ++ (if truthyStr f.body then [("body", f.body)] else [])
  ++ (match f.answers with
      | some n => [("answers", some (toString n))]
      | none => [])
  ++ (match f.has_accepted_answer with
      | some b => [("accepted", some (pyBoolStr b))]
      | none => [])
  ++ (match f.views with
      | some n => [("views", some (toString n))]
      | none => [])
  ++ (if truthyStr f.url then [("url", f.url)] else [])
  ++ (match f.user_id with
      | some n => [("user", some (toString n))]
      | none => [])
  ++ (match f.is_closed with
      | some b => [("closed", some (pyBoolStr b))]
      | none => [])
  ++ (match f.is_wiki with
      | some b => [("wiki", some (pyBoolStr b))]
      | none => [])
  ++ (match f.is_migrated with
      | some b => [("migrated", some (pyBoolStr b))]
      | none => [])
  ++ (match f.has_notice with
      | some b => [("notice", some (pyBoolStr b))]
      | none => [])
  ++ (match f.from_date with
      | some t => [("fromdate", some (toString t))]
      | none => [])
  ++ (match f.to_date with
      | some t => [("todate", some (toString t))]
      | none => [])
  ++ (if truthyInt f.limit then [("pagesize", some (toString (f.limit.getD 0)))] else [])

/-- `json.dumps(results, cls=DataClassJSONEncoder, indent=2)` as executed by
formatter.py: the custom encoder's `default` tests
`hasattr(obj, "dataclass_fields__")` — a misspelling of
`__dataclass_fields__` that no object satisfies — so any `SearchResult`
element falls through to `json.JSONEncoder.default`, which raises
`TypeError`; the empty list never consults the encoder and serializes to
`[]`. -/
def jsonDumpsResults (results : List SearchResult) : Except String String :=
  match results with
  | [] => .ok "[]"
  | _ => .error "TypeError: Object of type SearchResult is not JSON serializable"

/-- The bulleted comment list of formatter.py (lines 48-49 and 64-65). -/
def renderCommentList (cleanHtml : String → String)
    (comments : List StackOverflowComment) : String :=
  comments.foldl
    (fun md c =>
      md ++ "- " ++ cleanHtml c.body ++ " *(Score: " ++ toString c.score ++ ")*\n")
    ""

/-- One answer section of the markdown output (formatter.py lines 53-67),
including the accepted-answer check-mark and the source's literal `"/n"`
appended after an answer's comment list. -/
def renderAnswer (cleanHtml : String → String)
    (comments : Option SearchResultComments) (a : StackOverflowAnswer) : String :=
  "### " ++ (if a.is_accepted then "✓ " else "") ++ "Answer (Score: "
    ++ toString a.score ++ ")\n\n"
  ++ cleanHtml a.body ++ "\n\n"
  ++ (match comments with
      | some cb =>
        if ! cb.answers.isEmpty then
          match dictGet cb.answers a.answer_id with
          | some cs =>
            if ! cs.isEmpty then
              "#### Answer Comments\n\n" ++ renderCommentList cleanHtml cs ++ "/n"
            else ""
          | none => ""
        else ""
      | none => "")

/-- One aggregate-result section of the markdown output (formatter.py
lines 39-69). -/
def renderResult (cleanHtml : String → String) (result : SearchResult) : String :=
  "# " ++ result.question.title ++ "\n\n"
  ++ "**Score:** " ++ toString result.question.score ++ " | **Answers:** "
    ++ toString result.question.answer_count ++ "\n\n"
  ++ "## Question\n\n" ++ cleanHtml result.question.body ++ "\n\n"
  ++ (match result.comments with
      | some cb =>
        if ! cb.question.isEmpty then
          "### Question Comments\n\n" ++ renderCommentList cleanHtml cb.question ++ "\n"
        else ""
      | none => "")
  ++ "## Answers\n\n"
  ++ (result.answers.foldl
      (fun md a => md ++ renderAnswer cleanHtml result.comments a) "")
  ++ "---\n\n[View on Stack Overflow](" ++ result.question.link ++ ")\n\n"

/-- `format_response` (formatter.py lines 9-71): the JSON branch returns
first; only afterwards does the empty check return `"No results found."`;
any non-JSON format falls through to the markdown rendering.  The
`clean_html` helper is referenced by formatter.py but not defined in this
repository's sources, so it is taken as a parameter. -/
def formatResponse (cleanHtml : String → String) (results : List SearchResult)
    (formatType : String) : Except String String :=
  if formatType = "json" then
    jsonDumpsResults results
  else if results.isEmpty then
    .ok "No results found."
  else
    .ok (results.foldl (fun md r => md ++ renderResult cleanHtml r) "")

/-- The arguments that server.py's `analyze_stack_trace` tool (lines
194-226) passes to `api.search_by_query`, which forwards them to
`advanced_search`.  The query is the first line of the stack trace, the tag
list is the lowercased language, and `min_score` is the constant `0` — the
tool takes no minimum-score input; its separate `include_comments` and
`response_format` arguments do not feed the filter set. -/
def analyzeStackTraceCall (stackTrace language : String)
    (limit : Option Int) : SearchFilters :=
  { query := some ((stackTrace.splitOn "\n").headD "")
    tags := some [language.toLower]
    min_score := some 0
    limit := limit }

/-- Fixture: a question record with identifier 10 and score 5. -/
def fixtureQuestion : QRecord := { question_id := some 10, score := some 5 }

/-- Fixture upstream mirroring the spec vignette: one question (id 10) with
two answers (ids 100 and 101); the question has one comment, the answers
have zero and two comments respectively. -/
def fixtureUpstream : Upstream :=
  { searchItems := [fixtureQuestion]
    answerItems := fun i =>
      if i = some 10 then
        [{ answer_id := some 100, question_id := some 10 },
         { answer_id := some 101, question_id := some 10 }]
      else []
    commentItems := fun i =>
      if i = some 10 then [{ comment_id := some 1000, post_id := some 10 }]
      else if i = some 101 then
        [{ comment_id := some 2000, post_id := some 101 },
         { comment_id := some 2001, post_id := some 101 }]
      else []
    questionItems := fun i => if i = 10 then [fixtureQuestion] else [] }

/-- Fixture upstream with five low-scoring search hits. -/
def lowScoreUpstream : Upstream :=
  { searchItems :=
      [{ question_id := some 1, score := some 10 },
       { question_id := some 2, score := some 20 },
       { question_id := some 3, score := some 30 },
       { question_id := some 4, score := some 42 },
       { question_id := some 5, score := some 50 }]
    answerItems := fun _ => []
    commentItems := fun _ => []
    questionItems := fun _ => [] }

/-- Fixture upstream with one negative-scoring and one positive-scoring
search hit. -/
def mixedScoreUpstream : Upstream :=
  { searchItems :=
      [{ question_id := some 1, score := some (-5) },
       { question_id := some 2, score := some 3 }]
    answerItems := fun _ => []
    commentItems := fun _ => []
    questionItems := fun _ => [] }

lemma runChecks_append (cfg : Config) (xs ys : List Int) (tss : List Int) :
    runChecks cfg (xs ++ ys) tss =
      ((runChecks cfg xs tss).1 ++ (runChecks cfg ys (runChecks cfg xs tss).2).1,
        (runChecks cfg ys (runChecks cfg xs tss).2).2) := by
  induction xs generalizing tss with
  | nil => simp [runChecks]
  | cons x xs ih => simp [runChecks, ih]

lemma runChecks_admit_all (cfg : Config) (times : List Int) :
    ∀ acc : List Int,
      (∀ a ∈ acc, ∀ b ∈ times, b - a < cfg.rateLimitWindowMs) →
      InOneWindow cfg times →
      acc.length + times.length ≤ cfg.maxRequestsPerWindow →
      runChecks cfg times acc = (List.replicate times.length true, acc ++ times) := by
  induction times with
  | nil => intro acc _ _ _; simp [runChecks]
  | cons t ts ih =>
    intro acc hacc hwin hlen
    have hkeep : acc.filter (fun ts' => t - ts' < cfg.rateLimitWindowMs) = acc := by
      apply List.filter_eq_self.mpr
      intro a ha
      simpa using hacc a ha t (by simp)
    have hlt : ¬ acc.length ≥ cfg.maxRequestsPerWindow := by
      simp only [List.length_cons] at hlen
      omega
    have hwin' : InOneWindow cfg ts := (List.pairwise_cons.mp hwin).2
    have hstep :
        runChecks cfg (t :: ts) acc =
          (true :: (runChecks cfg ts (acc ++ [t])).1,
            (runChecks cfg ts (acc ++ [t])).2) := by
      simp only [runChecks, checkRateLimit, hkeep]
      rw [if_neg hlt]
    rw [hstep, ih (acc ++ [t])]
    · simp [List.replicate_succ]
    · intro a ha b hb
      rcases List.mem_append.mp ha with h | h
      · exact hacc a h b (by simp [hb])
      · have : a = t := by simpa using h
        subst this
        exact (List.pairwise_cons.mp hwin).1 b hb
    · exact hwin'
    · simp only [List.length_append, List.length_singleton, List.length_cons,
        List.length_nil] at hlen ⊢
      omega

/-- **C1.** For check instants that all fall within one rate-limit window,
starting from an empty timestamp list, a sequence of `ceiling + 1` admission
checks admits the first `ceiling` calls (hence every prefix of `N ≤ ceiling`
calls is fully admitted), records exactly one timestamp per admitted call,
and rejects the `(ceiling+1)`-th call without recording a timestamp. -/
theorem rate_limiter_window_ceiling (cfg : Config) (times : List Int)
    (hwin : InOneWindow cfg times)
    (hlen : times.length = cfg.maxRequestsPerWindow + 1) :
    runChecks cfg times [] =
      (List.replicate cfg.maxRequestsPerWindow true ++ [false],
        times.take cfg.maxRequestsPerWindow) := by
  have hsplit : times = times.take cfg.maxRequestsPerWindow ++
      times.drop cfg.maxRequestsPerWindow := (List.take_append_drop _ _).symm
  have htake : (times.take cfg.maxRequestsPerWindow).length =
      cfg.maxRequestsPerWindow := by
    rw [List.length_take]; omega
  have hdrop : (times.drop cfg.maxRequestsPerWindow).length = 1 := by
    rw [List.length_drop]; omega
  obtain ⟨u, hu⟩ : ∃ u, times.drop cfg.maxRequestsPerWindow = [u] :=
    List.length_eq_one.mp hdrop
  have hwin_take : InOneWindow cfg (times.take cfg.maxRequestsPerWindow) := by
    exact List.Pairwise.sublist (List.take_sublist _ _) hwin
  have hfirst := runChecks_admit_all cfg (times.take cfg.maxRequestsPerWindow) []
      (by intro a ha; simp at ha) hwin_take (by simp [htake])
  have hall : ∀ a ∈ times.take cfg.maxRequestsPerWindow,
      u - a < cfg.rateLimitWindowMs := by
    intro a ha
    have hmem_u : u ∈ times.drop cfg.maxRequestsPerWindow := by simp [hu]
    have := List.pairwise_append.mp (hsplit ▸ hwin)
    exact this.2.2 a ha u hmem_u
  have hkeep : (times.take cfg.maxRequestsPerWindow).filter
      (fun ts' => u - ts' < cfg.rateLimitWindowMs) =
      times.take cfg.maxRequestsPerWindow := by
    apply List.filter_eq_self.mpr
    intro a ha
    simpa using hall a ha
  have hlast :
      runChecks cfg [u] (times.take cfg.maxRequestsPerWindow) =
        ([false], times.take cfg.maxRequestsPerWindow) := by
    simp only [runChecks, checkRateLimit, hkeep]
    rw [if_pos (by rw [htake])]
  calc runChecks cfg times [] =
      runChecks cfg (times.take cfg.maxRequestsPerWindow ++ [u]) [] := by
        rw [← hu, ← hsplit]
    _ = (List.replicate cfg.maxRequestsPerWindow true ++ [false],
        times.take cfg.maxRequestsPerWindow) := by
        rw [runChecks_append, hfirst]
        simp only [htake, List.nil_append]
        rw [hlast]

lemma pairwise_replicate_self {α : Type} {r : α → α → Prop} {x : α} (hx : r x x) :
    ∀ n, (List.replicate n x).Pairwise r := by
  intro n
  induction n with
  | zero => simp
  | succ n ih =>
    rw [List.replicate_succ]
    exact List.Pairwise.cons (fun b hb => (List.eq_of_mem_replicate hb) ▸ hx) ih

/-- Witness for C1 at the default configuration: 31 checks at the same
instant admit the first 30 and reject the 31st. -/
theorem rate_limiter_window_ceiling_witness :
    InOneWindow defaultConfig (List.replicate 31 (0 : Int)) ∧
    (List.replicate 31 (0 : Int)).length = defaultConfig.maxRequestsPerWindow + 1 ∧
    runChecks defaultConfig (List.replicate 31 (0 : Int)) [] =
      (List.replicate defaultConfig.maxRequestsPerWindow true ++ [false],
        (List.replicate 31 (0 : Int)).take defaultConfig.maxRequestsPerWindow) := by
  refine ⟨pairwise_replicate_self (by decide) 31, by decide, ?_⟩
  exact rate_limiter_window_ceiling defaultConfig _
    (pairwise_replicate_self (by decide) 31) (by decide)

lemma checkRateLimit_admit (cfg : Config) (ls : LimiterState)
    (h : ls.timestamps.length < cfg.maxRequestsPerWindow) :
    (checkRateLimit cfg ls).1 = true ∧
    (checkRateLimit cfg ls).2.timestamps.length ≤ ls.timestamps.length + 1 := by
  have hle : (ls.timestamps.filter
      (fun ts => ls.now - ts < cfg.rateLimitWindowMs)).length ≤
      ls.timestamps.length := List.length_filter_le _ _
  simp only [checkRateLimit]
  rw [if_neg (by omega)]
  refine ⟨rfl, ?_⟩
  simp only [List.length_append, List.length_singleton]
  omega

lemma withRateLimit_429_exhaust {α : Type} (cfg : Config) (op : Nat → PyOutcome α)
    (hop : ∀ n, op n = .httpStatusError 429) :
    ∀ (n : Nat) (retries attempts : Int) (st : RunState),
      retries.toNat = n → 1 ≤ attempts →
      st.limiter.timestamps.length + n < cfg.maxRequestsPerWindow →
      ∃ fin : RunState,
        withRateLimit cfg op retries attempts st = (.httpStatusError 429, fin) ∧
        fin.calls = st.calls + n + 1 ∧ fin.localWaits = st.localWaits ∧
        fin.retryWaits = st.retryWaits + n := by
  intro n
  induction n with
  | zero =>
    intro retries attempts st hr hatt hcap
    obtain ⟨hadm, _⟩ := checkRateLimit_admit cfg st.limiter (by omega)
    rw [withRateLimit.eq_def, if_neg (by omega : ¬ attempts ≤ 0)]
    simp only [hadm, hop]
    rw [if_neg (by simp)]
    rw [if_neg (by simp; omega)]
    exact ⟨_, rfl, by simp, rfl, by simp⟩
  | succ n ih =>
    intro retries attempts st hr hatt hcap
    obtain ⟨hadm, hlen⟩ := checkRateLimit_admit cfg st.limiter (by omega)
    rw [withRateLimit.eq_def, if_neg (by omega : ¬ attempts ≤ 0)]
    simp only [hadm, hop]
    rw [if_neg (by simp)]
    rw [if_pos (show retries > 0 ∧ True from ⟨by omega, trivial⟩)]
    obtain ⟨fin, heq, hc, hl, hrw⟩ :=
      ih (retries - 1) attempts
        { st with
            limiter :=
              { (checkRateLimit cfg st.limiter).2 with
                  now := (checkRateLimit cfg st.limiter).2.now + cfg.retryAfterMs }
            calls := st.calls + 1
            retryWaits := st.retryWaits + 1 }
        (by omega)
        hatt
        (show (checkRateLimit cfg st.limiter).2.timestamps.length + n <
            cfg.maxRequestsPerWindow by omega)
    refine ⟨fin, heq, ?_, ?_, ?_⟩
    · have hc' : fin.calls = st.calls + 1 + n + 1 := hc
      omega
    · exact hl
    · have hrw' : fin.retryWaits = st.retryWaits + 1 + n := hrw
      omega

/-- **C2.** Starting from a fresh limiter (empty timestamp list) with the
retry budget below the admission ceiling: an operation that always raises
HTTP 429 is invoked exactly `retries + 1` times and the 429 error then
propagates unchanged with no local-wait sleeps consumed; an operation that
always raises a non-429 HTTP error, or a non-HTTP exception, is invoked
exactly once and its error propagates with no retry sleep at all. -/
theorem executor_429_retry_budget {α : Type} (cfg : Config)
    (retries attempts now : Int)
    (hr : 0 ≤ retries) (hatt : 1 ≤ attempts)
    (hcap : retries.toNat + 1 ≤ cfg.maxRequestsPerWindow) :
    (∀ op : Nat → PyOutcome α, (∀ n, op n = .httpStatusError 429) →
      ∃ fin : RunState,
        withRateLimit cfg op retries attempts ⟨⟨[], now⟩, 0, 0, 0⟩ =
          (.httpStatusError 429, fin) ∧
        fin.calls = retries.toNat + 1 ∧ fin.localWaits = 0) ∧
    (∀ (op : Nat → PyOutcome α) (c : Nat), c ≠ 429 →
      (∀ n, op n = .httpStatusError c) →
      withRateLimit cfg op retries attempts ⟨⟨[], now⟩, 0, 0, 0⟩ =
        (.httpStatusError c,
          ⟨(checkRateLimit cfg ⟨[], now⟩).2, 1, 0, 0⟩)) ∧
    (∀ (op : Nat → PyOutcome α) (m : String), (∀ n, op n = .otherError m) →
      withRateLimit cfg op retries attempts ⟨⟨[], now⟩, 0, 0, 0⟩ =
        (.otherError m, ⟨(checkRateLimit cfg ⟨[], now⟩).2, 1, 0, 0⟩)) := by
  have hadm := checkRateLimit_admit cfg ⟨[], now⟩ (by simp; omega)
  refine ⟨?_, ?_, ?_⟩
  · intro op hop
    obtain ⟨fin, heq, hc, hl, _⟩ :=
      withRateLimit_429_exhaust cfg op hop retries.toNat retries attempts
        ⟨⟨[], now⟩, 0, 0, 0⟩ rfl hatt (by simp; omega)
    exact ⟨fin, heq, by simpa using hc, by simpa using hl⟩
  · intro op c hc hop
    rw [withRateLimit.eq_def, if_neg (by omega : ¬ attempts ≤ 0)]
    simp only [hadm.1, hop]
    rw [if_neg (by simp)]
    rw [if_neg (by simp [hc])]
  · intro op m hop
    rw [withRateLimit.eq_def, if_neg (by omega : ¬ attempts ≤ 0)]
    simp only [hadm.1, hop]
    rw [if_neg (by simp)]

/-- Witness for C2 at the defaults (`retries = 3`, `attempts = 10`): the
always-429 operation is invoked 4 times, a persistent 500 propagates after a
single invocation. -/
theorem executor_429_retry_budget_witness :
    (∃ fin : RunState,
      withRateLimit defaultConfig (fun _ => PyOutcome.httpStatusError (α := Nat) 429)
          3 10 ⟨⟨[], 0⟩, 0, 0, 0⟩ = (.httpStatusError 429, fin) ∧
      fin.calls = 4 ∧ fin.localWaits = 0) ∧
    withRateLimit defaultConfig (fun _ => PyOutcome.httpStatusError (α := Nat) 500)
        3 10 ⟨⟨[], 0⟩, 0, 0, 0⟩ =
      (.httpStatusError 500, ⟨(checkRateLimit defaultConfig ⟨[], 0⟩).2, 1, 0, 0⟩) := by
  have h := executor_429_retry_budget (α := Nat) defaultConfig 3 10 0
    (by norm_num) (by norm_num) (by decide)
  refine ⟨?_, h.2.1 _ 500 (by norm_num) (fun _ => rfl)⟩
  obtain ⟨fin, heq, hc, hl⟩ := h.1 (fun _ => .httpStatusError 429) (fun _ => rfl)
  exact ⟨fin, heq, by simpa using hc, hl⟩

/-- **C3.** If the limiter rejects the first `k` admission checks and then
admits, and the operation succeeds on its (single) invocation, the executor
returns the operation's result having decremented only the local-wait budget
— once per rejected check, with no upstream-retry sleep — for any `retries`
value; and whenever `attempts ≤ 0` the executor fails immediately with the
rate-limit-exhausted error, its state (in particular the invocation counter)
untouched. -/
theorem executor_local_wait_budget {α : Type} (cfg : Config)
    (op : Nat → PyOutcome α) (v : α) (k : Nat) (retries attempts : Int)
    (st : RunState) :
    (rejectsThenAdmits cfg k st.limiter = true → (k : Int) < attempts →
      op st.calls = .ok v →
      ∃ fin : RunState,
        withRateLimit cfg op retries attempts st = (.ok v, fin) ∧
        fin.calls = st.calls + 1 ∧ fin.localWaits = st.localWaits + k ∧
        fin.retryWaits = st.retryWaits) ∧
    (attempts ≤ 0 →
      withRateLimit cfg op retries attempts st =
        (.otherError "Maximum rate limiting attempts exceeded", st)) := by
  constructor
  · induction k generalizing attempts st with
    | zero =>
      intro hrej hatt hop
      simp only [rejectsThenAdmits] at hrej
      rw [withRateLimit.eq_def, if_neg (by omega : ¬ attempts ≤ 0)]
      simp only [hrej, hop]
      rw [if_neg (by simp)]
      exact ⟨_, rfl, rfl, by simp, rfl⟩
    | succ k ih =>
      intro hrej hatt hop
      simp only [rejectsThenAdmits, Bool.and_eq_true, Bool.not_eq_true'] at hrej
      rw [withRateLimit.eq_def, if_neg (by omega : ¬ attempts ≤ 0)]
      rw [if_pos hrej.1]
      obtain ⟨fin, heq, hc, hl, hrw⟩ :=
        ih (attempts - 1)
          { st with
              limiter :=
                { (checkRateLimit cfg st.limiter).2 with
                    now := (checkRateLimit cfg st.limiter).2.now + cfg.retryAfterMs }
              localWaits := st.localWaits + 1 }
          hrej.2 (by push_cast at hatt ⊢; omega) hop
      refine ⟨fin, heq, hc, ?_, hrw⟩
      have hl' : fin.localWaits = st.localWaits + 1 + k := hl
      omega
  · intro hatt
    rw [withRateLimit.eq_def, if_pos hatt]

/-- Witness for C3: with ceiling 1, window 4000 ms and backoff 2000 ms, a
limiter holding one fresh timestamp rejects twice, then admits; a successful
operation's value is returned with `localWaits` grown by 2 and no retry
consumed; and with `attempts = 0` the executor fails without invoking the
operation. -/
theorem executor_local_wait_budget_witness :
    (rejectsThenAdmits ⟨1, 4000, 2000⟩ 2 ⟨[0], 100⟩ = true ∧
      ∃ fin : RunState,
        withRateLimit ⟨1, 4000, 2000⟩ (fun _ => PyOutcome.ok (42 : Nat)) 3 10
            ⟨⟨[0], 100⟩, 0, 0, 0⟩ = (.ok 42, fin) ∧
        fin.calls = 0 + 1 ∧ fin.localWaits = 0 + 2 ∧ fin.retryWaits = 0) ∧
    withRateLimit ⟨1, 4000, 2000⟩ (fun _ => PyOutcome.ok (42 : Nat)) 3 0
        ⟨⟨[0], 100⟩, 0, 0, 0⟩ =
      (.otherError "Maximum rate limiting attempts exceeded",
        ⟨⟨[0], 100⟩, 0, 0, 0⟩) := by
  refine ⟨⟨by decide, ?_⟩, ?_⟩
  · exact (executor_local_wait_budget ⟨1, 4000, 2000⟩ (fun _ => PyOutcome.ok 42)
      42 2 3 10 ⟨⟨[0], 100⟩, 0, 0, 0⟩).1 (by decide) (by norm_num) rfl
  · exact (executor_local_wait_budget ⟨1, 4000, 2000⟩ (fun _ => PyOutcome.ok 42)
      42 2 3 0 ⟨⟨[0], 100⟩, 0, 0, 0⟩).2 le_rfl

lemma withRateLimit_bounds_aux {α : Type} (cfg : Config) (op : Nat → PyOutcome α) :
    ∀ (n : Nat) (retries attempts : Int) (st : RunState),
      retries.toNat + attempts.toNat ≤ n →
      (withRateLimit cfg op retries attempts st).2.calls ≤
        st.calls + retries.toNat + 1 ∧
      (withRateLimit cfg op retries attempts st).2.localWaits ≤
        st.localWaits + attempts.toNat := by
  intro n
  induction n with
  | zero =>
    intro retries attempts st hn
    rw [withRateLimit.eq_def, if_pos (by omega : attempts ≤ 0)]
    refine ⟨?_, ?_⟩
    · show st.calls ≤ st.calls + retries.toNat + 1
      omega
    · show st.localWaits ≤ st.localWaits + attempts.toNat
      omega
  | succ n ih =>
    intro retries attempts st hn
    by_cases hatt : attempts ≤ 0
    · rw [withRateLimit.eq_def, if_pos hatt]
      refine ⟨?_, ?_⟩
      · show st.calls ≤ st.calls + retries.toNat + 1
        omega
      · show st.localWaits ≤ st.localWaits + attempts.toNat
        omega
    · rw [withRateLimit.eq_def, if_neg hatt]
      by_cases hadm : (checkRateLimit cfg st.limiter).1 = false
      · rw [if_pos hadm]
        obtain ⟨h1, h2⟩ := ih retries (attempts - 1)
          { st with
              limiter :=
                { (checkRateLimit cfg st.limiter).2 with
                    now := (checkRateLimit cfg st.limiter).2.now + cfg.retryAfterMs }
              localWaits := st.localWaits + 1 }
          (by omega)
        refine ⟨h1, le_trans h2 ?_⟩
        show st.localWaits + 1 + (attempts - 1).toNat ≤ st.localWaits + attempts.toNat
        omega
      · have hadm' : (checkRateLimit cfg st.limiter).1 = true := by
          revert hadm
          cases (checkRateLimit cfg st.limiter).1 <;> simp
        rw [if_neg hadm]
        rcases hop : op st.calls with v | code | m
        · simp only [hop]
          refine ⟨?_, ?_⟩
          · show st.calls + 1 ≤ st.calls + retries.toNat + 1
            omega
          · show st.localWaits ≤ st.localWaits + attempts.toNat
            omega
        · simp only [hop]
          by_cases hretry : retries > 0 ∧ code = 429
          · rw [if_pos hretry]
            obtain ⟨hr0, _⟩ := hretry
            obtain ⟨h1, h2⟩ := ih (retries - 1) attempts
              { st with
                  limiter :=
                    { (checkRateLimit cfg st.limiter).2 with
                        now := (checkRateLimit cfg st.limiter).2.now + cfg.retryAfterMs }
                  calls := st.calls + 1
                  retryWaits := st.retryWaits + 1 }
              (by omega)
            refine ⟨le_trans h1 ?_, h2⟩
            show st.calls + 1 + (retries - 1).toNat + 1 ≤ st.calls + retries.toNat + 1
            omega
          · rw [if_neg hretry]
            refine ⟨?_, ?_⟩
            · show st.calls + 1 ≤ st.calls + retries.toNat + 1
              omega
            · show st.localWaits ≤ st.localWaits + attempts.toNat
              omega
        · simp only [hop]
          refine ⟨?_, ?_⟩
          · show st.calls + 1 ≤ st.calls + retries.toNat + 1
            omega
          · show st.localWaits ≤ st.localWaits + attempts.toNat
            omega

/-- **C9.** The executor is a total function (its two budgets jointly
decrease on every recursive call), the operation is invoked at most
`retries + 1` times, and at most `attempts` local-wait sleeps are performed,
whatever the operation, configuration and starting state. -/
theorem executor_invocation_and_wait_bounds {α : Type} (cfg : Config)
    (op : Nat → PyOutcome α) (retries attempts : Int) (st : RunState) :
    (withRateLimit cfg op retries attempts st).2.calls ≤
      st.calls + retries.toNat + 1 ∧
    (withRateLimit cfg op retries attempts st).2.localWaits ≤
      st.localWaits + attempts.toNat :=
  withRateLimit_bounds_aux cfg op (retries.toNat + attempts.toNat)
    retries attempts st le_rfl

lemma dictInsert_cons_hit {κ ν : Type} [DecidableEq κ] (a k : κ) (b v : ν)
    (rest : List (κ × ν)) (h : a = k) :
    dictInsert ((a, b) :: rest) k v = (k, v) :: rest := by
  simp [dictInsert, h]

lemma dictInsert_cons_miss {κ ν : Type} [DecidableEq κ] (a k : κ) (b v : ν)
    (rest : List (κ × ν)) (h : ¬ a = k) :
    dictInsert ((a, b) :: rest) k v = (a, b) :: dictInsert rest k v := by
  simp [dictInsert, h]

lemma dictGet_insert {κ ν : Type} [DecidableEq κ] :
    ∀ (d : List (κ × ν)) (k k' : κ) (v : ν),
      dictGet (dictInsert d k v) k' = if k' = k then some v else dictGet d k' := by
  intro d k k' v
  induction d with
  | nil =>
    by_cases h : k' = k
    · subst h; simp [dictInsert, dictGet]
    · have h2 : ¬ k = k' := fun hh => h hh.symm
      simp [dictInsert, dictGet, h, h2]
  | cons hd rest ih =>
    obtain ⟨a, b⟩ := hd
    by_cases h1 : a = k
    · rw [dictInsert_cons_hit a k b v rest h1]
      subst h1
      by_cases h2 : k' = a
      · subst h2; simp [dictGet]
      · have h3 : ¬ a = k' := fun hh => h2 hh.symm
        simp [dictGet, h2, h3]
    · rw [dictInsert_cons_miss a k b v rest h1]
      by_cases h3 : a = k'
      · subst h3
        simp [dictGet, h1]
      · simp [dictGet, h3, ih]

lemma mem_dictKeys_insert {κ ν : Type} [DecidableEq κ] :
    ∀ (d : List (κ × ν)) (k k' : κ) (v : ν),
      k' ∈ dictKeys (dictInsert d k v) ↔ k' ∈ dictKeys d ∨ k' = k := by
  intro d k k' v
  induction d with
  | nil => simp [dictInsert, dictKeys]
  | cons hd rest ih =>
    obtain ⟨a, b⟩ := hd
    by_cases h1 : a = k
    · rw [dictInsert_cons_hit a k b v rest h1]
      subst h1
      simp only [dictKeys, List.map_cons, List.mem_cons]
      tauto
    · rw [dictInsert_cons_miss a k b v rest h1]
      simp only [dictKeys, List.map_cons, List.mem_cons] at ih ⊢
      tauto

lemma buildComments_fold_mem (up : Upstream) :
    ∀ (answers : List StackOverflowAnswer)
      (acc : List (Option Int × List StackOverflowComment)) (k : Option Int),
      k ∈ dictKeys (answers.foldl
        (fun acc a =>
          dictInsert acc a.answer_id ((up.commentItems a.answer_id).map commentOfRecord))
        acc) ↔
      k ∈ dictKeys acc ∨ k ∈ answers.map StackOverflowAnswer.answer_id := by
  intro answers
  induction answers with
  | nil => simp
  | cons a answers ih =>
    intro acc k
    simp only [List.foldl_cons, List.map_cons, List.mem_cons]
    rw [ih, mem_dictKeys_insert]
    tauto

lemma buildComments_fold_get (up : Upstream) :
    ∀ (answers : List StackOverflowAnswer)
      (acc : List (Option Int × List StackOverflowComment)) (k : Option Int),
      dictGet (answers.foldl
        (fun acc a =>
          dictInsert acc a.answer_id ((up.commentItems a.answer_id).map commentOfRecord))
        acc) k =
      if k ∈ answers.map StackOverflowAnswer.answer_id
      then some ((up.commentItems k).map commentOfRecord)
      else dictGet acc k := by
  intro answers
  induction answers with
  | nil => simp
  | cons a answers ih =>
    intro acc k
    simp only [List.foldl_cons, List.map_cons, List.mem_cons]
    rw [ih, dictGet_insert]
    by_cases h1 : k ∈ answers.map StackOverflowAnswer.answer_id
    · simp [h1]
    · by_cases h2 : k = a.answer_id
      · subst h2; simp [h1]
      · simp [h1, h2]

/-- The comment-bundle invariant holds of every assembled result with
comments included: the bundle is present, its keys are exactly the answer
identifiers, each key holds the comments fetched for that identifier, and
the question slot holds the comments fetched for the question. -/
lemma assembleResult_comment_bundle (up : Upstream) (r : QRecord) :
    ∃ cb : SearchResultComments,
      (assembleResult up true r).comments = some cb ∧
      (∀ k, k ∈ dictKeys cb.answers ↔
        k ∈ (assembleResult up true r).answers.map StackOverflowAnswer.answer_id) ∧
      (∀ a ∈ (assembleResult up true r).answers,
        dictGet cb.answers a.answer_id =
          some ((up.commentItems a.answer_id).map commentOfRecord)) ∧
      cb.question =
        (up.commentItems (assembleResult up true r).question.question_id).map
          commentOfRecord := by
  refine ⟨buildComments up (questionOfRecord r).question_id
    ((up.answerItems (questionOfRecord r).question_id).map answerOfRecord),
    rfl, ?_, ?_, rfl⟩
  · intro k
    show k ∈ dictKeys
        (((up.answerItems (questionOfRecord r).question_id).map answerOfRecord).foldl
          (fun acc a =>
            dictInsert acc a.answer_id
              ((up.commentItems a.answer_id).map commentOfRecord))
          []) ↔
      k ∈ ((up.answerItems (questionOfRecord r).question_id).map answerOfRecord).map
        StackOverflowAnswer.answer_id
    rw [buildComments_fold_mem up
      ((up.answerItems (questionOfRecord r).question_id).map answerOfRecord) [] k]
    simp [dictKeys]
  · intro a ha
    show dictGet
        (((up.answerItems (questionOfRecord r).question_id).map answerOfRecord).foldl
          (fun acc a =>
            dictInsert acc a.answer_id
              ((up.commentItems a.answer_id).map commentOfRecord))
          [])
        a.answer_id =
      some ((up.commentItems a.answer_id).map commentOfRecord)
    rw [buildComments_fold_get up
      ((up.answerItems (questionOfRecord r).question_id).map answerOfRecord) []
      a.answer_id]
    have hmem : a.answer_id ∈
        ((up.answerItems (questionOfRecord r).question_id).map answerOfRecord).map
          StackOverflowAnswer.answer_id :=
      List.mem_map_of_mem _ ha
    rw [if_pos hmem]

lemma advancedSearch_mem_score (up : Upstream) (m : Int) (ic : Bool) :
    ∀ sr ∈ advancedSearch up (some m) ic, m ≤ sr.question.score := by
  intro sr hsr
  obtain ⟨r, hr, rfl⟩ := List.mem_map.mp hsr
  have hk := (List.mem_filter.mp hr).2
  simp only [keepRecord, Bool.not_eq_true', decide_eq_false_iff_not, not_lt] at hk
  exact hk

lemma advancedSearch_empty_of_all_below (up : Upstream) (m : Int) (ic : Bool)
    (h : ∀ r ∈ up.searchItems, r.score.getD 0 < m) :
    advancedSearch up (some m) ic = [] := by
  have hf : up.searchItems.filter (keepRecord (some m)) = [] := by
    rw [List.filter_eq_nil_iff]
    intro r hr
    simp only [keepRecord, Bool.not_eq_true', decide_eq_false_iff_not, not_lt, not_le]
    exact h r hr
  simp [advancedSearch, hf]

/-- **C4 evidence.** Every entity construction in api.py raises: the
keyword arguments passed at the call sites include fields
(`last_activity_date`, `view_count`, `is_closed`, `owner`) that the types.py
dataclasses do not declare, so the mapping of every upstream record — even a
fully-populated one — fails with a TypeError instead of applying defaults. -/
theorem mapping_always_raises_typeerror :
    (∀ r : QRecord, mapQuestionRecord r =
      .error "TypeError: unexpected keyword argument last_activity_date") ∧
    (∀ r : ARecord, mapAnswerRecord r =
      .error "TypeError: unexpected keyword argument last_activity_date") ∧
    (∀ r : CRecord, mapCommentRecord r =
      .error "TypeError: unexpected keyword argument owner") :=
  ⟨fun _ => rfl, fun _ => rfl, fun _ => rfl⟩

/-- **C5.** Every aggregate assembled with comments included — whether by
the search loop or by the single-question lookup — carries a comment bundle
whose key set is exactly the identifiers of the answers in that same
aggregate, each key holding the comment sequence fetched for that answer,
and whose question slot is the comment sequence fetched for the question. -/
theorem comment_bundle_keys_exact (up : Upstream) (minScore : Option Int)
    (qid : Int) :
    (∀ sr ∈ advancedSearch up minScore true,
      ∃ cb : SearchResultComments,
        sr.comments = some cb ∧
        (∀ k, k ∈ dictKeys cb.answers ↔
          k ∈ sr.answers.map StackOverflowAnswer.answer_id) ∧
        (∀ a ∈ sr.answers, dictGet cb.answers a.answer_id =
          some ((up.commentItems a.answer_id).map commentOfRecord)) ∧
        cb.question =
          (up.commentItems sr.question.question_id).map commentOfRecord) ∧
    (∀ sr : SearchResult, getQuestion up qid true = .ok sr →
      ∃ cb : SearchResultComments,
        sr.comments = some cb ∧
        (∀ k, k ∈ dictKeys cb.answers ↔
          k ∈ sr.answers.map StackOverflowAnswer.answer_id) ∧
        (∀ a ∈ sr.answers, dictGet cb.answers a.answer_id =
          some ((up.commentItems a.answer_id).map commentOfRecord)) ∧
        cb.question =
          (up.commentItems sr.question.question_id).map commentOfRecord) := by
  constructor
  · intro sr hsr
    obtain ⟨r, _, rfl⟩ := List.mem_map.mp hsr
    exact assembleResult_comment_bundle up r
  · intro sr hsr
    rcases hitems : up.questionItems qid with _ | ⟨r, rest⟩
    · simp [getQuestion, hitems] at hsr
    · rw [getQuestion, hitems] at hsr
      obtain rfl : assembleResult up true r = sr := by
        simpa using hsr
      exact assembleResult_comment_bundle up r

/-- Witness for C5 on the vignette fixture: the assembled aggregate for
question 10 (two answers, comment fetches of sizes 1, 0 and 2) satisfies
the bundle invariant, and concretely has keys `[100, 101]`, comment lists
of lengths 0 and 2, and one question comment. -/
theorem comment_bundle_keys_exact_witness :
    (∃ cb : SearchResultComments,
      (assembleResult fixtureUpstream true fixtureQuestion).comments = some cb ∧
      (∀ k, k ∈ dictKeys cb.answers ↔
        k ∈ (assembleResult fixtureUpstream true fixtureQuestion).answers.map
          StackOverflowAnswer.answer_id) ∧
      (∀ a ∈ (assembleResult fixtureUpstream true fixtureQuestion).answers,
        dictGet cb.answers a.answer_id =
          some ((fixtureUpstream.commentItems a.answer_id).map commentOfRecord)) ∧
      cb.question =
        (fixtureUpstream.commentItems
          (assembleResult fixtureUpstream true fixtureQuestion).question.question_id).map
          commentOfRecord) ∧
    (assembleResult fixtureUpstream true fixtureQuestion).comments.map
        (fun cb => (dictKeys cb.answers,
          cb.question.length,
          (dictGet cb.answers (some 100)).map List.length,
          (dictGet cb.answers (some 101)).map List.length)) =
      some ([some 100, some 101], 1, some 0, some 2) := by
  constructor
  · exact (comment_bundle_keys_exact fixtureUpstream none 10).1
      (assembleResult fixtureUpstream true fixtureQuestion) (by decide)
  · decide

/-- **C6.** The upstream parameter dict of `advanced_search` is independent
of `min_score`; with a threshold `m`, every below-threshold item is
discarded after the fetch (so when all items score below `m` the result is
empty), every returned question scores at least `m`, and the result count
never exceeds the fetched item count. -/
theorem min_score_filtered_locally (f : SearchFilters) (m : Int)
    (up : Upstream) (ic : Bool) :
    (∀ ms : Option Int,
      buildSearchParams { f with min_score := ms } = buildSearchParams f) ∧
    ((∀ r ∈ up.searchItems, r.score.getD 0 < m) →
      advancedSearch up (some m) ic = []) ∧
    (∀ sr ∈ advancedSearch up (some m) ic, m ≤ sr.question.score) ∧
    (advancedSearch up (some m) ic).length ≤ up.searchItems.length := by
  refine ⟨fun _ => rfl, advancedSearch_empty_of_all_below up m ic,
    advancedSearch_mem_score up m ic, ?_⟩
  calc (advancedSearch up (some m) ic).length
      = (up.searchItems.filter (keepRecord (some m))).length := by
        simp [advancedSearch]
    _ ≤ up.searchItems.length := List.length_filter_le _ _

/-- Witness for C6: with threshold 100 against the five-item fixture (all
scores below 100) the result sequence is empty. -/
theorem min_score_filtered_locally_witness :
    advancedSearch lowScoreUpstream (some 100) false = [] ∧
    buildSearchParams { (({} : SearchFilters)) with min_score := some 100 } =
      buildSearchParams {} :=
  ⟨(min_score_filtered_locally {} 100 lowScoreUpstream false).2.1 (by decide),
    (min_score_filtered_locally {} 100 lowScoreUpstream false).1 (some 100)⟩

/-- **C7 evidence.** In the staged source, `get_question` never returns an
aggregate: with zero items it raises the not-found error — whose message
carries the requested identifier — as claimed, but with one or more items
the question construction raises the types.py keyword-argument TypeError
before anything is returned, so the claimed successful outcome is
unreachable.  Evaluated on the vignette fixture: identifier 99 (no items)
yields the not-found error naming 99, and identifier 10 (one item) yields
the TypeError. -/
theorem get_question_staged_behavior (up : Upstream) (qid : Int) (ic : Bool) :
    getQuestionChecked up qid ic =
      (match up.questionItems qid with
      | [] => .error ("Question with ID " ++ toString qid ++ " not found")
      | _ :: _ =>
        .error "TypeError: unexpected keyword argument last_activity_date") ∧
    (∃ pre post : String,
      "Question with ID " ++ toString qid ++ " not found" =
        pre ++ toString qid ++ post) ∧
    getQuestionChecked fixtureUpstream 99 true =
      .error ("Question with ID " ++ toString (99 : Int) ++ " not found") ∧
    getQuestionChecked fixtureUpstream 10 true =
      .error "TypeError: unexpected keyword argument last_activity_date" := by
  refine ⟨?_, ⟨"Question with ID ", " not found", rfl⟩, rfl, rfl⟩
  rcases h : up.questionItems qid with _ | ⟨r, rest⟩
  · simp [getQuestionChecked, h]
  · unfold getQuestionChecked
    rw [h]
    rfl

/-- **C8 counterexample.** In JSON mode the empty result sequence renders
as the JSON empty array `[]`, not as the no-results message: the JSON
branch of `format_response` returns before the empty check. -/
theorem empty_results_json_counterexample :
    formatResponse id [] "json" = .ok "[]" ∧
    (Except.ok "[]" : Except String String) ≠ .ok "No results found." :=
  ⟨rfl, fun h => absurd (Except.ok.inj h) (by decide)⟩

/-- **C8 (amended).** The empty result sequence renders as the literal
`"No results found."` message in display-text mode (indeed in every
non-JSON mode), while in JSON mode it renders as the JSON empty array. -/
theorem empty_results_rendering (cleanHtml : String → String) (fmt : String) :
    formatResponse cleanHtml [] "markdown" = .ok "No results found." ∧
    formatResponse cleanHtml [] "json" = .ok "[]" ∧
    (fmt ≠ "json" → formatResponse cleanHtml [] fmt = .ok "No results found.") := by
  refine ⟨rfl, rfl, fun h => ?_⟩
  simp [formatResponse, h]

/-- Witness for C8 (amended) at concrete formats. -/
theorem empty_results_rendering_witness :
    formatResponse id [] "markdown" = .ok "No results found." ∧
    formatResponse id [] "json" = .ok "[]" ∧
    formatResponse id [] "text" = .ok "No results found." :=
  ⟨(empty_results_rendering id "text").1, (empty_results_rendering id "text").2.1,
    (empty_results_rendering id "text").2.2 (by decide)⟩

/-- **C10.** `analyze_stack_trace` always passes the constant minimum-score
threshold `0` to the search (its filter set has no minimum-score input),
and under that threshold every returned question has a non-negative score —
negative-score questions are excluded. -/
theorem analyze_stack_trace_min_score_zero (s l : String) (lim : Option Int)
    (up : Upstream) (ic : Bool) :
    (analyzeStackTraceCall s l lim).min_score = some 0 ∧
    ∀ sr ∈ advancedSearch up (analyzeStackTraceCall s l lim).min_score ic,
      0 ≤ sr.question.score :=
  ⟨rfl, advancedSearch_mem_score up 0 ic⟩

/-- Witness for C10: against the mixed fixture the call built from a stack
trace keeps only the positive-scoring question, which the theorem certifies
non-negative. -/
theorem analyze_stack_trace_min_score_zero_witness :
    (analyzeStackTraceCall "SomeError: boom\n  at main" "Python" (some 3)).min_score =
      some 0 ∧
    (advancedSearch mixedScoreUpstream
        (analyzeStackTraceCall "SomeError: boom\n  at main" "Python" (some 3)).min_score
        false).map (fun sr => sr.question.score) = [3] ∧
    0 ≤ (assembleResult mixedScoreUpstream false
        { question_id := some 2, score := some 3 }).question.score := by
  refine ⟨(analyze_stack_trace_min_score_zero "SomeError: boom\n  at main" "Python"
    (some 3) mixedScoreUpstream false).1, by decide, ?_⟩
  exact (analyze_stack_trace_min_score_zero "SomeError: boom\n  at main" "Python"
    (some 3) mixedScoreUpstream false).2
    (assembleResult mixedScoreUpstream false { question_id := some 2, score := some 3 })
    (by decide)

end SOMCP
